import Mathlib

/-!
Verification of the Markem-Imaje printer protocol codec (`imaje.py`).

Shallow embedding conventions:

* The source builds commands as escaped-hex text (`"\x30\x00\x01\x00"`) and
  receives responses as lists of two-hex-digit strings (`format(x, "02x")`).
  For byte values below 256 both representations are in bijection with the
  byte value, so commands and responses are embedded as `List Nat` of byte
  values.  Where the source manipulates the *textual* hex digits of a byte
  (for example `float(response[4])`), the embedding materialises those digit
  characters explicitly (`hexStrCodes`).
* Python text is embedded as `List Nat` of character codepoints.
* A raised Python exception is an `Except.error` carrying a `PyErr`; the
  exception object that `send_command` returns on a socket failure is the
  `Except.error` side of `Response`.
* The transport is external: each `Printer` operation takes the raw
  response(s) it would receive as an argument.
-/

/-- The Python exception kinds that the embedded code can produce. -/
inductive PyErr where
  | indexError
  | keyError
  | valueError
  | typeError
  | unicodeDecodeError
  | transportError
  deriving DecidableEq, Repr

deriving instance DecidableEq for Except

/-- What `Printer.send_command` hands back: either the received bytes
(the list of two-hex-digit strings, embedded by value) or, because the
source catches every socket exception and returns the exception object,
a transport error value. -/
abbrev Response := Except PyErr (List Nat)

/-- Python `l[i]`: the element at `i`, raising `IndexError` when out of range. -/
def pyIndex {α : Type} (l : List α) (i : Nat) : Except PyErr α :=
  match l[i]? with
  | some x => .ok x
  | none => .error .indexError

/-- Python `l[a:b]` for nonnegative bounds: elements `a` to `b-1`, total. -/
def pySlice {α : Type} (l : List α) (a b : Nat) : List α :=
  (l.drop a).take (b - a)

/-- Codepoint is an ASCII decimal digit. -/
def isDigitCode (c : Nat) : Bool := 48 ≤ c && c ≤ 57

/-- Value of a string of ASCII decimal digit codes. -/
def digitsVal (codes : List Nat) : Nat :=
  codes.foldl (fun a c => 10 * a + (c - 48)) 0

/-- Models `Utils.hex_to_text` (`bytes.fromhex(...).decode("utf-8")`) on its
protocol domain: joining the response's hex pairs recovers exactly the raw
bytes, and UTF-8 decoding is the identity on codepoints below 128 (every
payload this codec decodes is ASCII).  Bytes at 128 and above are mapped to
a decode error. -/
def hexToText (bytes : List Nat) : Except PyErr (List Nat) :=
  if bytes.all (fun b => b < 128) then .ok bytes else .error .unicodeDecodeError

/-- Models Python `int(s)` on the digit-string case the protocol exercises:
a nonempty all-digit string parses to its value, anything else raises
`ValueError`. -/
def pyInt (codes : List Nat) : Except PyErr Int :=
  if codes ≠ [] ∧ codes.all isDigitCode then .ok (digitsVal codes : Int)
  else .error .valueError

/-- Splitting a codepoint string at the dot character (codepoint 46),
keeping empty pieces, as Python string splitting does. -/
def splitOnDot : List Nat → List (List Nat)
  | [] => [[]]
  | c :: cs =>
      let ps := splitOnDot cs
      if c = 46 then [] :: ps
      else (c :: ps.headD []) :: ps.tail

/-- Models Python `float(s)` on the finite-decimal strings the protocol
exercises: an optional single dot splits integer and fractional digits,
at least one digit must be present and every other character is a digit;
anything else raises `ValueError`. -/
def pyFloatParts : List (List Nat) → Except PyErr ℚ
  | [ip] =>
      if ip ≠ [] ∧ ip.all isDigitCode then .ok (digitsVal ip : ℚ)
      else .error .valueError
  | [ip, fp] =>
      if ip ++ fp ≠ [] ∧ (ip ++ fp).all isDigitCode then
        .ok ((digitsVal ip : ℚ) + (digitsVal fp : ℚ) / (10 : ℚ) ^ fp.length)
      else .error .valueError
  | _ => .error .valueError

def pyFloat (codes : List Nat) : Except PyErr ℚ :=
  pyFloatParts (splitOnDot codes)

/-- The two lowercase hex digit codepoints of `format(b, "02x")` for a byte. -/
def hexDigitCode (d : Nat) : Nat := if d ≤ 9 then 48 + d else 87 + d

/-- The codepoints of the two-hex-digit string a response byte is carried as. -/
def hexStrCodes (b : Nat) : List Nat := [hexDigitCode (b / 16), hexDigitCode (b % 16)]

namespace Utils

/-- `Utils.calculate_checksum`'s accumulator loop: XOR of every byte of the
command, in order, starting from zero. -/
def checksum_value (command : List Nat) : Nat :=
  command.foldl (fun acc b => acc ^^^ b) 0

/-- `Utils.calculate_checksum`: the command with its XOR checksum appended as
the final byte. -/
def calculate_checksum (command : List Nat) : List Nat :=
  command ++ [checksum_value command]

/-- `Utils.extract_response_code`: `response[0] == "06"` when the response is
a list (raising `IndexError` on an empty list), `False` for anything else
(in particular for the exception object `send_command` returns on a
transport failure). -/
def extract_response_code (response : Response) : Except PyErr Bool :=
  match response with
  | .ok bytes =>
      match bytes with
      | [] => .error .indexError
      | b :: _ => .ok (b == 6)
  | .error _ => .ok false

end Utils

/-- `Printer.get_v24_dialog`: ack detection applied directly to the dialog
probe's response. -/
def get_v24_dialog (resp : Response) : Except PyErr Bool :=
  Utils.extract_response_code resp

/-- `Printer.start_stop_printer`'s framed command for a given mode byte. -/
def start_stop_frame (mode : Nat) : List Nat :=
  Utils.calculate_checksum [0x30, 0x00, 0x01, mode]

/-- Models `bin(int(i, 16))[2:].zfill(8)` for one response byte: its eight
bits, most significant first (the embedding's domain is byte values below
256, for which the zero-filled binary string has exactly eight characters). -/
def byteToBits (b : Nat) : List Bool :=
  [b.testBit 7, b.testBit 6, b.testBit 5, b.testBit 4,
   b.testBit 3, b.testBit 2, b.testBit 1, b.testBit 0]

/-- `s₁ :: s₂` starts with the pattern. -/
def startsWithSeq : List Char → List Char → Bool
  | [], _ => true
  | _ :: _, [] => false
  | p :: ps, c :: cs => p == c && startsWithSeq ps cs

/-- Some suffix of the text starts with the pattern: Python `pat in s`. -/
def containsSeq (pat : List Char) : List Char → Bool
  | [] => startsWithSeq pat []
  | c :: cs => startsWithSeq pat (c :: cs) || containsSeq pat cs

/-- Python `"not_present" in key`. -/
def hasNotPresent (key : String) : Bool :=
  containsSeq "not_present".toList key.toList

/-- The 19 device-level fault names of `get_printer_faults`, each with the
(row, character) position it reads from `printer_faults` (the three-byte
window `response_bin[4:7]`), in the source's dict-literal order. -/
def deviceFaultTable : List (String × Nat × Nat) :=
  [("ink_level_low", 0, 7),
   ("pressure_error", 0, 6),
   ("cpu_hw_error", 0, 5),
   ("memory_lost", 0, 4),
   ("head_1_faulty", 0, 3),
   ("head_2_faulty", 0, 2),
   ("motor_cycle_fault", 0, 1),
   ("pigmented_ink_circuit_fault", 0, 0),
   ("autodating_fault", 1, 2),
   ("ram_fault", 1, 1),
   ("rom_fault", 1, 0),
   ("v24_fault", 2, 7),
   ("recovery_tank_too_full", 2, 6),
   ("ink_tank_too_full", 2, 5),
   ("accu_empty", 2, 4),
   ("temp_fault", 2, 3),
   ("viscosity_fault", 2, 2),
   ("fan_fault", 2, 1),
   ("additive_fault", 2, 0)]

/-- The f-string key `f"j{jet_id}_<name>"`. -/
def jetKey (jet_id : Nat) (name : String) : String :=
  "j" ++ toString jet_id ++ "_" ++ name

/-- The 14 per-jet fault names for jet index `jet_id`, each with its
(row, character) position in that jet's three-byte window, in the source's
update order. -/
def jetFaultTable (jet_id : Nat) : List (String × Nat × Nat) :=
  [(jetKey jet_id "printing_hardware_fault", 0, 7),
   (jetKey jet_id "frame_generator_fault", 0, 2),
   (jetKey jet_id "char_generator_fault", 0, 1),
   (jetKey jet_id "cover_fault", 1, 3),
   (jetKey jet_id "EHV_fault", 1, 2),
   (jetKey jet_id "recovery", 1, 1),
   (jetKey jet_id "phase_detection", 1, 0),
   (jetKey jet_id "not_present", 2, 7),
   (jetKey jet_id "communication_cpu_printer", 2, 6),
   (jetKey jet_id "printing_speed_fault", 2, 5),
   (jetKey jet_id "DTOP_filtering", 2, 4),
   (jetKey jet_id "no_message_to_print", 2, 3),
   (jetKey jet_id "incorrect_char_generator_n", 2, 2),
   (jetKey jet_id "DTOP_printing", 2, 1)]

/-- Reads the named bits of one fault table out of a window of bit rows, in
table order, raising `IndexError` at the first entry whose row is missing
from a truncated window, exactly as the source's `faults[i][j]` lookups do. -/
def readFaultBits (rows : List (List Bool)) :
    List (String × Nat × Nat) → Except PyErr (List (String × Bool))
  | [] => .ok []
  | e :: rest => do
      let row ← pyIndex rows e.2.1
      let bit ← pyIndex row e.2.2
      let tail ← readFaultBits rows rest
      pure ((e.1, bit) :: tail)

/-- The source's `for jet_id, faults in enumerate(jet_faults)` update loop:
each jet window's 14 named bits, jets in order, keys carrying the running
zero-based index. -/
def readJetFaults : List (List (List Bool)) → Nat → Except PyErr (List (String × Bool))
  | [], _ => .ok []
  | w :: ws, jet_id => do
      let w_faults ← readFaultBits w (jetFaultTable jet_id)
      let rest ← readJetFaults ws (jet_id + 1)
      pure (w_faults ++ rest)

/-- `Printer.get_printer_faults`: on an acknowledged response, expand every
response byte to its bits, slice the device window `[4:7]` and the four
three-byte jet windows `[7:10] [10:13] [13:16] [16:19]`, and read out the
named booleans (device table first, then jets 0 to 3); otherwise
`(False, None)`. -/
def get_printer_faults (resp : Response) :
    Except PyErr (Bool × Option (List (String × Bool))) := do
  let ack ← Utils.extract_response_code resp
  match resp, ack with
  | .ok bytes, true => do
      let response_bin := bytes.map byteToBits
      let printer_faults := pySlice response_bin 4 7
      let jet_faults := [pySlice response_bin 7 10, pySlice response_bin 10 13,
                         pySlice response_bin 13 16, pySlice response_bin 16 19]
      let device ← readFaultBits printer_faults deviceFaultTable
      let jets ← readJetFaults jet_faults 0
      pure (true, some (device ++ jets))
  | _, _ => pure (false, none)

/-- `Printer.get_number_of_available_jets`: derived from the fault query by
counting the keys containing `not_present` whose value decodes to 0;
`(False, None)` when the fault query fails. -/
def get_number_of_available_jets (resp : Response) :
    Except PyErr (Bool × Option Nat) := do
  let pf ← get_printer_faults resp
  match pf with
  | (true, some faults) =>
      pure (true, some ((faults.filter
        (fun kv => hasNotPresent kv.1 && (kv.2 == false))).length))
  | _ => pure (false, none)

/-- Python `jet_id > counted`, where `counted` is the second component of
`get_number_of_available_jets`: comparing an `int` against `None` raises
`TypeError`. -/
def pyGtOpt (n : Nat) : Option Nat → Except PyErr Bool
  | some m => .ok (decide (n > m))
  | none => .error .typeError

/-- The `available_status` literal of `Printer.get_jet_status`, keyed here by
the byte value whose two-hex-digit string is the source's dict key. -/
def available_status : List (Nat × String) :=
  [(0, "Jet stopped"),
   (1, "Jet in start-up phase"),
   (2, "Jet in refresh"),
   (3, "Jet in stability check"),
   (4, "Jet in solvent feed"),
   (5, "Jet in nozzle unclog"),
   (6, "Adjustment"),
   (7, "Jet running")]

/-- Python `available_status[response[4]]`: `KeyError` when the status byte
is not a key of the literal table. -/
def pyDictGet (table : List (Nat × String)) (k : Nat) : Except PyErr String :=
  match table.lookup k with
  | some v => .ok v
  | none => .error .keyError

/-- `Printer.get_jet_status`: first the advisory jet-count comparison
(`jet_id > get_number_of_available_jets()[1]`, whose failure branch only
prints), then decode of the status response: label of byte 4 on an
acknowledged response, `(False, None)` otherwise.  `faultResp` is the
response the embedded jet-count query receives, `cmdResp` the response to
the status command itself. -/
def get_jet_status (faultResp cmdResp : Response) (jet_id : Nat) :
    Except PyErr (Bool × Option String) := do
  let avail ← get_number_of_available_jets faultResp
  let _ ← pyGtOpt jet_id avail.2
  let ack ← Utils.extract_response_code cmdResp
  match cmdResp, ack with
  | .ok bytes, true => do
      let b ← pyIndex bytes 4
      let label ← pyDictGet available_status b
      pure (true, some label)
  | _, _ => pure (false, none)

/-- `Printer.get_jet_speed`: on an acknowledged response,
`float(response[4]) / 10` — the two-hex-digit string of byte 4 parsed as a
decimal numeral, divided by 10; `(False, None)` otherwise.  (No jet-count
check in this operation.) -/
def get_jet_speed (cmdResp : Response) : Except PyErr (Bool × Option ℚ) := do
  let ack ← Utils.extract_response_code cmdResp
  match cmdResp, ack with
  | .ok bytes, true => do
      let b ← pyIndex bytes 4
      let v ← pyFloat (hexStrCodes b)
      pure (true, some (v / 10))
  | _, _ => pure (false, none)

/-- `Printer.get_jet_counter`: advisory jet-count comparison, then decode of
`int(hex_to_text(response[4:13]))` on an acknowledged response; the failure
branch returns `(False, 0)`. -/
def get_jet_counter (faultResp cmdResp : Response) (jet_id : Nat) :
    Except PyErr (Bool × Int) := do
  let avail ← get_number_of_available_jets faultResp
  let _ ← pyGtOpt jet_id avail.2
  let ack ← Utils.extract_response_code cmdResp
  match cmdResp, ack with
  | .ok bytes, true => do
      let counter_data ← hexToText (pySlice bytes 4 13)
      let n ← pyInt counter_data
      pure (true, n)
  | _, _ => pure (false, 0)

/-- `Printer.reset_jet_counter`: advisory jet-count comparison, then the ack
of the reset command's response. -/
def reset_jet_counter (faultResp cmdResp : Response) (jet_id : Nat) :
    Except PyErr Bool := do
  let avail ← get_number_of_available_jets faultResp
  let _ ← pyGtOpt jet_id avail.2
  Utils.extract_response_code cmdResp

/-- The variable block of `Printer.set_external_variable`: each variable's
character codes wrapped in 0x12 delimiters, concatenated. -/
def variablesBytes (vars : List (List Nat)) : List Nat :=
  vars.foldl (fun acc v => acc ++ ([0x12] ++ v ++ [0x12])) []

/-- `content_length` of `Printer.set_external_variable`: 1 plus, per
variable, its length plus the two delimiters. -/
def contentLength (vars : List (List Nat)) : Nat :=
  vars.foldl (fun acc v => acc + v.length + 2) 1

/-- The framed `set_external_variable` command: opcode 0x5B, the two bytes
of the four-hex-digit content length, the jet id, the delimited variable
block, and the checksum. -/
def set_external_variable_frame (jet_id : Nat) (vars : List (List Nat)) : List Nat :=
  Utils.calculate_checksum
    ([0x5B, contentLength vars / 256, contentLength vars % 256, jet_id]
      ++ variablesBytes vars)

/-- `Printer.set_external_variable`: advisory jet-count comparison first,
then the ack of the response to the framed command. -/
def set_external_variable (faultResp cmdResp : Response) (jet_id : Nat)
    (vars : List (List Nat)) : Except PyErr Bool := do
  let avail ← get_number_of_available_jets faultResp
  let _ ← pyGtOpt jet_id avail.2
  let _frame := set_external_variable_frame jet_id vars
  Utils.extract_response_code cmdResp

/-- The seven-field `ParameterSet` decoded by `Printer.get_parameters`.
Decimal-comma fields are embedded as exact rationals. -/
structure ParameterSet where
  motor_speed : Int
  pressure : ℚ
  visco_filling_times : Int
  additive_added : Int
  average_jet_speed : ℚ
  temperature_of_electronics : Int
  temperature_of_ink_circuit : Int
  deriving DecidableEq, Repr

/-- Python `s.replace(",", ".")` on codepoints. -/
def commaToDot (codes : List Nat) : List Nat :=
  codes.map (fun c => if c = 44 then 46 else c)

/-- The field extraction of `Printer.get_parameters` applied to the payload
window `response[4:30]`: the window's ASCII text is cut at fixed offsets
into the seven fields, the two decimal fields having their comma turned
into a dot before `float`. -/
def decode_parameters_window (window : List Nat) : Except PyErr ParameterSet := do
  let data ← hexToText window
  let motor_speed ← pyInt (pySlice data 0 4)
  let pressure ← pyFloat (commaToDot (pySlice data 5 9))
  let visco_filling_times ← pyInt (pySlice data 10 12)
  let additive_added ← pyInt (pySlice data 13 15)
  let average_jet_speed ← pyFloat (commaToDot (pySlice data 16 20))
  let temperature_of_electronics ← pyInt (pySlice data 21 23)
  let temperature_of_ink_circuit ← pyInt (pySlice data 24 26)
  pure ⟨motor_speed, pressure, visco_filling_times, additive_added,
        average_jet_speed, temperature_of_electronics, temperature_of_ink_circuit⟩

/-- `Printer.get_parameters`: window decode of bytes 4 to 29 on an
acknowledged response, `(False, None)` otherwise. -/
def get_parameters (resp : Response) : Except PyErr (Bool × Option ParameterSet) := do
  let ack ← Utils.extract_response_code resp
  match resp, ack with
  | .ok bytes, true => do
      let p ← decode_parameters_window (pySlice bytes 4 30)
      pure (true, some p)
  | _, _ => pure (false, none)

/-- A date/time value in the printer's six-field representation (two-digit
year), the payload of `set_autodating_table` and result of
`get_autodating_table`. -/
structure DateTimeValue where
  sec : Nat
  min : Nat
  hour : Nat
  day : Nat
  month : Nat
  year : Nat
  deriving DecidableEq, Repr

/-- The four-digit Gregorian year `datetime.strptime`'s `%y` maps a
two-digit year to: 0 to 68 land in the 2000s, 69 to 99 in the 1900s. -/
def pivotYear (y : Nat) : Nat := if y ≤ 68 then 2000 + y else 1900 + y

/-- Gregorian leap-year rule. -/
def isLeapYear (y : Nat) : Bool :=
  (y % 4 == 0 && y % 100 != 0) || y % 400 == 0

/-- Days of a month of the pivoted year, as `datetime` validates them. -/
def daysInMonth (month year : Nat) : Nat :=
  if month = 2 then (if isLeapYear (pivotYear year) then 29 else 28)
  else if month = 4 ∨ month = 6 ∨ month = 9 ∨ month = 11 then 30
  else 31

/-- The field ranges `datetime.strptime` (and the `datetime` constructor it
calls) accepts for the six-field format, including the calendar check. -/
def ValidDateTime (t : DateTimeValue) : Prop :=
  t.sec ≤ 59 ∧ t.min ≤ 59 ∧ t.hour ≤ 23 ∧ 1 ≤ t.month ∧ t.month ≤ 12 ∧
    1 ≤ t.day ∧ t.day ≤ daysInMonth t.month t.year ∧ t.year ≤ 99

instance (t : DateTimeValue) : Decidable (ValidDateTime t) := by
  unfold ValidDateTime; infer_instance

/-- The two zero-padded decimal digit codepoints `strftime` produces for one
date/time field (all six fields are at most two digits). -/
def twoDigitCodes (v : Nat) : List Nat := [48 + v / 10, 48 + v % 10]

/-- The digit text `date_time.strftime("\x%S\x%M\x%H\x%d\x%m\x%y")` writes
into the command string, without the escape markers: seconds, minutes,
hours, day, month, two-digit year, two zero-padded digits each. -/
def strftime_payload_digits (t : DateTimeValue) : List Nat :=
  twoDigitCodes t.sec ++ twoDigitCodes t.min ++ twoDigitCodes t.hour ++
    twoDigitCodes t.day ++ twoDigitCodes t.month ++ twoDigitCodes t.year

/-- One payload byte of the set-date/time command: the escape `\x` followed
by a field's two decimal digits makes the transport layer read those digits
as hexadecimal, so field value `v` goes on the wire as byte
`16 * (v / 10) + v % 10`. -/
def bcdByte (v : Nat) : Nat := 16 * (v / 10) + v % 10

/-- The payload bytes of `set_autodating_table`'s framed command: the six
BCD-read fields followed by the trailing 0x20 byte. -/
def set_autodating_payload (t : DateTimeValue) : List Nat :=
  [bcdByte t.sec, bcdByte t.min, bcdByte t.hour, bcdByte t.day,
   bcdByte t.month, bcdByte t.year, 0x20]

/-- The complete framed `set_autodating_table` command: opcode 0xC8, length
bytes 00 07, payload, checksum. -/
def set_autodating_frame (t : DateTimeValue) : List Nat :=
  Utils.calculate_checksum ([0xC8, 0x00, 0x07] ++ set_autodating_payload t)

/-- Models `datetime.strptime(date_string, "%S%M%H%d%m%y")` on the digit
strings this codec feeds it: the full-width case of twelve digits is split
into six two-digit fields which must pass the `datetime` range and calendar
checks; a stripped digit string of any other length raises (shorter runs
than six digits always fail in Python, and the fixed 22-byte wire window of
a real reply yields the full twelve digits). -/
def strptime_SMHdmy (digits : List Nat) : Except PyErr DateTimeValue :=
  match digits with
  | [s1, s2, m1, m2, h1, h2, d1, d2, n1, n2, y1, y2] =>
      let t : DateTimeValue :=
        ⟨(s1 - 48) * 10 + (s2 - 48), (m1 - 48) * 10 + (m2 - 48),
         (h1 - 48) * 10 + (h2 - 48), (d1 - 48) * 10 + (d2 - 48),
         (n1 - 48) * 10 + (n2 - 48), (y1 - 48) * 10 + (y2 - 48)⟩
      if ValidDateTime t then .ok t else .error .valueError
  | _ => .error .valueError

/-- The decode core of `Printer.get_autodating_table` applied to the payload
window `response[4:26]`: text of the window's bytes, every non-digit
character stripped (`re.sub(r"[^0-9]", "", data)`), then `strptime`. -/
def get_autodating_window_decode (window : List Nat) : Except PyErr DateTimeValue := do
  let data ← hexToText window
  strptime_SMHdmy (data.filter isDigitCode)

/-- `Printer.get_autodating_table`: window decode of bytes 4 to 25 on an
acknowledged response, `(False, None)` otherwise. -/
def get_autodating_table (resp : Response) :
    Except PyErr (Bool × Option DateTimeValue) := do
  let ack ← Utils.extract_response_code resp
  match resp, ack with
  | .ok bytes, true => do
      let t ← get_autodating_window_decode (pySlice bytes 4 26)
      pure (true, some t)
  | _, _ => pure (false, none)

theorem checksum_foldl_eq_foldr (a : Nat) (l : List Nat) :
    l.foldl (fun acc b => acc ^^^ b) a = a ^^^ l.foldr (fun b acc => b ^^^ acc) 0 := by
  induction l generalizing a with
  | nil => simp
  | cons b t ih =>
      simp only [List.foldl_cons, List.foldr_cons, ih (a ^^^ b)]
      rw [Nat.xor_assoc]

/-- Claim C1: the checksum is the XOR reduction of all bytes (stated via the
right fold, equal to the source's left-to-right accumulator from zero), the
framed command is the input with that checksum appended, the empty command
has checksum 0, and the stop command 30 00 01 00 frames to 30 00 01 00 31. -/
theorem claim1_checksum_framing :
    (∀ B : List Nat,
        Utils.calculate_checksum B = B ++ [B.foldr (fun b acc => b ^^^ acc) 0]) ∧
    Utils.checksum_value [] = 0 ∧
    start_stop_frame 0 = [0x30, 0x00, 0x01, 0x00, 0x31] := by
  refine ⟨fun B => ?_, rfl, by decide⟩
  unfold Utils.calculate_checksum Utils.checksum_value
  rw [checksum_foldl_eq_foldr]
  simp

/-- Claim C2 counterexample: on an empty received byte list the ack detector
does not return false, it raises `IndexError` (Python `response[0]` on an
empty list). -/
theorem claim2_counterexample :
    Utils.extract_response_code (.ok []) = .error .indexError ∧
    Utils.extract_response_code (.ok []) ≠ .ok false := by
  decide

/-- Claim C2 amended: ack detection returns true exactly for a received byte
list whose first byte is 0x06, returns false for an absent response (the
transport exception object), raises `IndexError` on an empty byte list, and
a transport error reaches the dialog operation as a false result rather than
a raised exception. -/
theorem claim2_ack_detection :
    (∀ resp : Response,
        Utils.extract_response_code resp = .ok true ↔
          ∃ rest, resp = .ok (6 :: rest)) ∧
    (∀ e, Utils.extract_response_code (.error e) = .ok false) ∧
    Utils.extract_response_code (.ok []) = .error .indexError ∧
    (∀ e, get_v24_dialog (.error e) = .ok false) := by
  refine ⟨fun resp => ?_, fun e => rfl, rfl, fun e => rfl⟩
  constructor
  · intro h
    match resp with
    | .error e => simp [Utils.extract_response_code] at h
    | .ok [] => simp [Utils.extract_response_code] at h
    | .ok (b :: rest) =>
        simp only [Utils.extract_response_code, Except.ok.injEq, beq_iff_eq] at h
        exact ⟨rest, by rw [h]⟩
  · rintro ⟨rest, rfl⟩
    simp [Utils.extract_response_code]

/-- Claim C3 counterexample: for the valid date/time 01:02:03 on 04.05.06,
the payload bytes produced by the set-date/time encoding do not decode back
to that date/time through the get-date/time decoding; the decode raises
(the BCD-read payload bytes are control characters, every one of them is
stripped as a non-digit, and `strptime` fails on the empty digit string). -/
theorem claim3_counterexample :
    ValidDateTime ⟨3, 2, 1, 4, 5, 6⟩ ∧
    get_autodating_table (.ok ([6, 0, 0, 0] ++ set_autodating_payload ⟨3, 2, 1, 4, 5, 6⟩)) =
      .error .valueError ∧
    get_autodating_table (.ok ([6, 0, 0, 0] ++ set_autodating_payload ⟨3, 2, 1, 4, 5, 6⟩)) ≠
      .ok (true, some ⟨3, 2, 1, 4, 5, 6⟩) := by
  decide

theorem filter_digits_of_all_digits (l : List Nat) (h : ∀ c ∈ l, isDigitCode c = true) :
    l.filter isDigitCode = l :=
  List.filter_eq_self.mpr h

/-- Claim C3 amended: the set encoding writes each field as a BCD byte whose
two hex digits spell the zero-padded decimal field (so the byte-level
composition of set and get fails, see the counterexample), and the
round trip holds at the digit-text level: for every date/time in the
representable range, decoding a payload window that carries the very digit
text the set encoding spells (seconds, minutes, hours, day, month,
two-digit year) through the get-date/time decoding yields the original
date/time. -/
theorem claim3_roundtrip :
    (∀ v, v ≤ 99 → hexStrCodes (bcdByte v) = twoDigitCodes v) ∧
    (∀ t : DateTimeValue, ValidDateTime t →
        get_autodating_window_decode (strftime_payload_digits t) = .ok t) := by
  constructor
  · intro v hv
    simp only [hexStrCodes, twoDigitCodes]
    rw [show bcdByte v / 16 = v / 10 by unfold bcdByte; omega,
        show bcdByte v % 16 = v % 10 by unfold bcdByte; omega,
        hexDigitCode, hexDigitCode, if_pos (by omega : v / 10 ≤ 9),
        if_pos (by omega : v % 10 ≤ 9)]
  · intro t ht
    obtain ⟨h1, h2, h3, h4, h5, h6, h7, h8⟩ := ht
    have hdm : daysInMonth t.month t.year ≤ 31 := by
      unfold daysInMonth
      split
      · split <;> omega
      · split <;> omega
    have hw : strftime_payload_digits t =
        [48 + t.sec / 10, 48 + t.sec % 10, 48 + t.min / 10, 48 + t.min % 10,
         48 + t.hour / 10, 48 + t.hour % 10, 48 + t.day / 10, 48 + t.day % 10,
         48 + t.month / 10, 48 + t.month % 10, 48 + t.year / 10, 48 + t.year % 10] := rfl
    unfold get_autodating_window_decode
    rw [hw]
    rw [show hexToText
        [48 + t.sec / 10, 48 + t.sec % 10, 48 + t.min / 10, 48 + t.min % 10,
         48 + t.hour / 10, 48 + t.hour % 10, 48 + t.day / 10, 48 + t.day % 10,
         48 + t.month / 10, 48 + t.month % 10, 48 + t.year / 10, 48 + t.year % 10] =
      .ok [48 + t.sec / 10, 48 + t.sec % 10, 48 + t.min / 10, 48 + t.min % 10,
         48 + t.hour / 10, 48 + t.hour % 10, 48 + t.day / 10, 48 + t.day % 10,
         48 + t.month / 10, 48 + t.month % 10, 48 + t.year / 10, 48 + t.year % 10] from by
      unfold hexToText
      rw [if_pos]
      simp only [List.all_cons, List.all_nil, Bool.and_true, Bool.and_eq_true,
        decide_eq_true_eq]
      omega]
    show strptime_SMHdmy (List.filter isDigitCode
        [48 + t.sec / 10, 48 + t.sec % 10, 48 + t.min / 10, 48 + t.min % 10,
         48 + t.hour / 10, 48 + t.hour % 10, 48 + t.day / 10, 48 + t.day % 10,
         48 + t.month / 10, 48 + t.month % 10, 48 + t.year / 10, 48 + t.year % 10]) = .ok t
    rw [filter_digits_of_all_digits _ (by
      intro c hc
      simp only [List.mem_cons, List.not_mem_nil, or_false] at hc
      simp only [isDigitCode, Bool.and_eq_true, decide_eq_true_eq]
      rcases hc with rfl | rfl | rfl | rfl | rfl | rfl | rfl | rfl | rfl | rfl | rfl | rfl <;>
        omega)]
    simp only [strptime_SMHdmy]
    rw [show (48 + t.sec / 10 - 48) * 10 + (48 + t.sec % 10 - 48) = t.sec by omega,
        show (48 + t.min / 10 - 48) * 10 + (48 + t.min % 10 - 48) = t.min by omega,
        show (48 + t.hour / 10 - 48) * 10 + (48 + t.hour % 10 - 48) = t.hour by omega,
        show (48 + t.day / 10 - 48) * 10 + (48 + t.day % 10 - 48) = t.day by omega,
        show (48 + t.month / 10 - 48) * 10 + (48 + t.month % 10 - 48) = t.month by omega,
        show (48 + t.year / 10 - 48) * 10 + (48 + t.year % 10 - 48) = t.year by omega]
    rw [show (⟨t.sec, t.min, t.hour, t.day, t.month, t.year⟩ : DateTimeValue) = t from rfl]
    rw [if_pos ⟨h1, h2, h3, h4, h5, h6, h7, h8⟩]

/-- Claim C3 witness: the amended round trip evaluated at the concrete
date/time 23:58:59 on 31.12.99. -/
theorem claim3_roundtrip_witness :
    hexStrCodes (bcdByte 59) = twoDigitCodes 59 ∧
    (ValidDateTime ⟨59, 58, 23, 31, 12, 99⟩ ∧
      get_autodating_window_decode (strftime_payload_digits ⟨59, 58, 23, 31, 12, 99⟩) =
        .ok ⟨59, 58, 23, 31, 12, 99⟩) :=
  ⟨claim3_roundtrip.1 59 (by decide),
   ⟨by decide, claim3_roundtrip.2 ⟨59, 58, 23, 31, 12, 99⟩ (by decide)⟩⟩

/-- The fault set a successful 19-byte fault decode produces, written out
entry by entry: the value of each named boolean is the stated bit (bit 0 is
the least significant) of the stated response byte, keys in insertion
order. -/
def decodedFaultSet (b4 b5 b6 b7 b8 b9 b10 b11 b12 b13 b14 b15 b16 b17 b18 : Nat) :
    List (String × Bool) :=
  [("ink_level_low", b4.testBit 0),
   ("pressure_error", b4.testBit 1),
   ("cpu_hw_error", b4.testBit 2),
   ("memory_lost", b4.testBit 3),
   ("head_1_faulty", b4.testBit 4),
   ("head_2_faulty", b4.testBit 5),
   ("motor_cycle_fault", b4.testBit 6),
   ("pigmented_ink_circuit_fault", b4.testBit 7),
   ("autodating_fault", b5.testBit 5),
   ("ram_fault", b5.testBit 6),
   ("rom_fault", b5.testBit 7),
   ("v24_fault", b6.testBit 0),
   ("recovery_tank_too_full", b6.testBit 1),
   ("ink_tank_too_full", b6.testBit 2),
   ("accu_empty", b6.testBit 3),
   ("temp_fault", b6.testBit 4),
   ("viscosity_fault", b6.testBit 5),
   ("fan_fault", b6.testBit 6),
   ("additive_fault", b6.testBit 7),
   ("j0_printing_hardware_fault", b7.testBit 0),
   ("j0_frame_generator_fault", b7.testBit 5),
   ("j0_char_generator_fault", b7.testBit 6),
   ("j0_cover_fault", b8.testBit 4),
   ("j0_EHV_fault", b8.testBit 5),
   ("j0_recovery", b8.testBit 6),
   ("j0_phase_detection", b8.testBit 7),
   ("j0_not_present", b9.testBit 0),
   ("j0_communication_cpu_printer", b9.testBit 1),
   ("j0_printing_speed_fault", b9.testBit 2),
   ("j0_DTOP_filtering", b9.testBit 3),
   ("j0_no_message_to_print", b9.testBit 4),
   ("j0_incorrect_char_generator_n", b9.testBit 5),
   ("j0_DTOP_printing", b9.testBit 6),
   ("j1_printing_hardware_fault", b10.testBit 0),
   ("j1_frame_generator_fault", b10.testBit 5),
   ("j1_char_generator_fault", b10.testBit 6),
   ("j1_cover_fault", b11.testBit 4),
   ("j1_EHV_fault", b11.testBit 5),
   ("j1_recovery", b11.testBit 6),
   ("j1_phase_detection", b11.testBit 7),
   ("j1_not_present", b12.testBit 0),
   ("j1_communication_cpu_printer", b12.testBit 1),
   ("j1_printing_speed_fault", b12.testBit 2),
   ("j1_DTOP_filtering", b12.testBit 3),
   ("j1_no_message_to_print", b12.testBit 4),
   ("j1_incorrect_char_generator_n", b12.testBit 5),
   ("j1_DTOP_printing", b12.testBit 6),
   ("j2_printing_hardware_fault", b13.testBit 0),
   ("j2_frame_generator_fault", b13.testBit 5),
   ("j2_char_generator_fault", b13.testBit 6),
   ("j2_cover_fault", b14.testBit 4),
   ("j2_EHV_fault", b14.testBit 5),
   ("j2_recovery", b14.testBit 6),
   ("j2_phase_detection", b14.testBit 7),
   ("j2_not_present", b15.testBit 0),
   ("j2_communication_cpu_printer", b15.testBit 1),
   ("j2_printing_speed_fault", b15.testBit 2),
   ("j2_DTOP_filtering", b15.testBit 3),
   ("j2_no_message_to_print", b15.testBit 4),
   ("j2_incorrect_char_generator_n", b15.testBit 5),
   ("j2_DTOP_printing", b15.testBit 6),
   ("j3_printing_hardware_fault", b16.testBit 0),
   ("j3_frame_generator_fault", b16.testBit 5),
   ("j3_char_generator_fault", b16.testBit 6),
   ("j3_cover_fault", b17.testBit 4),
   ("j3_EHV_fault", b17.testBit 5),
   ("j3_recovery", b17.testBit 6),
   ("j3_phase_detection", b17.testBit 7),
   ("j3_not_present", b18.testBit 0),
   ("j3_communication_cpu_printer", b18.testBit 1),
   ("j3_printing_speed_fault", b18.testBit 2),
   ("j3_DTOP_filtering", b18.testBit 3),
   ("j3_no_message_to_print", b18.testBit 4),
   ("j3_incorrect_char_generator_n", b18.testBit 5),
   ("j3_DTOP_printing", b18.testBit 6)]

/-- The fault decode of an acknowledged 19-byte response evaluates to the
explicit fault set, whatever the byte values: checked by reduction. -/
theorem get_printer_faults_ok
    (b1 b2 b3 b4 b5 b6 b7 b8 b9 b10 b11 b12 b13 b14 b15 b16 b17 b18 : Nat) :
    get_printer_faults (.ok [6, b1, b2, b3, b4, b5, b6, b7, b8, b9, b10, b11,
        b12, b13, b14, b15, b16, b17, b18]) =
      .ok (true, some (decodedFaultSet b4 b5 b6 b7 b8 b9 b10 b11 b12 b13 b14
        b15 b16 b17 b18)) := rfl

/-- The complete key set of a successful fault decode: the 19 device-level
names followed by the 14 per-jet names for jet indices 0 to 3, in insertion
order. -/
def allFaultKeys : List String :=
  ["ink_level_low", "pressure_error", "cpu_hw_error", "memory_lost",
   "head_1_faulty", "head_2_faulty", "motor_cycle_fault",
   "pigmented_ink_circuit_fault", "autodating_fault", "ram_fault", "rom_fault",
   "v24_fault", "recovery_tank_too_full", "ink_tank_too_full", "accu_empty",
   "temp_fault", "viscosity_fault", "fan_fault", "additive_fault",
   "j0_printing_hardware_fault", "j0_frame_generator_fault",
   "j0_char_generator_fault", "j0_cover_fault", "j0_EHV_fault", "j0_recovery",
   "j0_phase_detection", "j0_not_present", "j0_communication_cpu_printer",
   "j0_printing_speed_fault", "j0_DTOP_filtering", "j0_no_message_to_print",
   "j0_incorrect_char_generator_n", "j0_DTOP_printing",
   "j1_printing_hardware_fault", "j1_frame_generator_fault",
   "j1_char_generator_fault", "j1_cover_fault", "j1_EHV_fault", "j1_recovery",
   "j1_phase_detection", "j1_not_present", "j1_communication_cpu_printer",
   "j1_printing_speed_fault", "j1_DTOP_filtering", "j1_no_message_to_print",
   "j1_incorrect_char_generator_n", "j1_DTOP_printing",
   "j2_printing_hardware_fault", "j2_frame_generator_fault",
   "j2_char_generator_fault", "j2_cover_fault", "j2_EHV_fault", "j2_recovery",
   "j2_phase_detection", "j2_not_present", "j2_communication_cpu_printer",
   "j2_printing_speed_fault", "j2_DTOP_filtering", "j2_no_message_to_print",
   "j2_incorrect_char_generator_n", "j2_DTOP_printing",
   "j3_printing_hardware_fault", "j3_frame_generator_fault",
   "j3_char_generator_fault", "j3_cover_fault", "j3_EHV_fault", "j3_recovery",
   "j3_phase_detection", "j3_not_present", "j3_communication_cpu_printer",
   "j3_printing_speed_fault", "j3_DTOP_filtering", "j3_no_message_to_print",
   "j3_incorrect_char_generator_n", "j3_DTOP_printing"]

set_option maxRecDepth 100000 in
/-- Claim C4: fault decoding is total-or-rejected.  On an acknowledged
response of exactly the 19 required bytes the decode succeeds and the fault
set carries exactly the 19 device-level and 14-per-jet-times-4 keys (fully
populated, no missing key); on an acknowledged response of any shorter
length the decode raises during construction and produces no fault set at
all. -/
theorem claim4_fault_decode_total_or_rejected :
    (∀ b1 b2 b3 b4 b5 b6 b7 b8 b9 b10 b11 b12 b13 b14 b15 b16 b17 b18 : Nat,
        ([6, b1, b2, b3, b4, b5, b6, b7, b8, b9, b10, b11, b12, b13, b14, b15,
          b16, b17, b18].all (fun b => b < 256)) = true →
        ∃ d, get_printer_faults (.ok [6, b1, b2, b3, b4, b5, b6, b7, b8, b9,
            b10, b11, b12, b13, b14, b15, b16, b17, b18]) = .ok (true, some d) ∧
          d.map Prod.fst = allFaultKeys) ∧
    (∀ bytes : List Nat, bytes.length < 19 → bytes[0]? = some 6 →
        ∃ e, get_printer_faults (.ok bytes) = .error e) := by
  constructor
  · intro b1 b2 b3 b4 b5 b6 b7 b8 b9 b10 b11 b12 b13 b14 b15 b16 b17 b18 hlt
    exact ⟨_, get_printer_faults_ok b1 b2 b3 b4 b5 b6 b7 b8 b9 b10 b11 b12
      b13 b14 b15 b16 b17 b18, rfl⟩
  · intro bytes hlen hhead
    rcases bytes with _ | ⟨b0, t⟩
    · simp at hhead
    obtain rfl : b0 = 6 := by simpa using hhead
    rcases t with _ | ⟨a1, t⟩
    · exact ⟨_, rfl⟩
    rcases t with _ | ⟨a2, t⟩
    · exact ⟨_, rfl⟩
    rcases t with _ | ⟨a3, t⟩
    · exact ⟨_, rfl⟩
    rcases t with _ | ⟨a4, t⟩
    · exact ⟨_, rfl⟩
    rcases t with _ | ⟨a5, t⟩
    · exact ⟨_, rfl⟩
    rcases t with _ | ⟨a6, t⟩
    · exact ⟨_, rfl⟩
    rcases t with _ | ⟨a7, t⟩
    · exact ⟨_, rfl⟩
    rcases t with _ | ⟨a8, t⟩
    · exact ⟨_, rfl⟩
    rcases t with _ | ⟨a9, t⟩
    · exact ⟨_, rfl⟩
    rcases t with _ | ⟨a10, t⟩
    · exact ⟨_, rfl⟩
    rcases t with _ | ⟨a11, t⟩
    · exact ⟨_, rfl⟩
    rcases t with _ | ⟨a12, t⟩
    · exact ⟨_, rfl⟩
    rcases t with _ | ⟨a13, t⟩
    · exact ⟨_, rfl⟩
    rcases t with _ | ⟨a14, t⟩
    · exact ⟨_, rfl⟩
    rcases t with _ | ⟨a15, t⟩
    · exact ⟨_, rfl⟩
    rcases t with _ | ⟨a16, t⟩
    · exact ⟨_, rfl⟩
    rcases t with _ | ⟨a17, t⟩
    · exact ⟨_, rfl⟩
    rcases t with _ | ⟨a18, t⟩
    · exact ⟨_, rfl⟩
    simp only [List.length_cons] at hlen
    omega

/-- Claim C4 witness: the total side at the all-zero healthy 19-byte
response, the rejected side at the two-byte acknowledged response 06 00. -/
theorem claim4_witness :
    (∃ d, get_printer_faults (.ok [6, 0, 0, 0, 0, 0, 0, 0, 0, 0, 0, 0, 0, 0,
        0, 0, 0, 0, 0]) = .ok (true, some d) ∧ d.map Prod.fst = allFaultKeys) ∧
    (∃ e, get_printer_faults (.ok [6, 0]) = .error e) :=
  ⟨claim4_fault_decode_total_or_rejected.1 0 0 0 0 0 0 0 0 0 0 0 0 0 0 0 0 0 0
      (by decide),
   claim4_fault_decode_total_or_rejected.2 [6, 0] (by decide) (by decide)⟩

set_option maxRecDepth 100000 in
/-- Claim C10: the per-jet fault keys are generated with zero-based jet
indices from enumerating the four 3-byte jet windows, so on every
successful fault decode the window of the physical jet numbered k (1 to 4,
its `not_present` bit sitting in the last byte of its window, bytes 9, 12,
15 and 18) is published under the key prefix with index k-1; there are no
keys with index 4. -/
theorem claim10_jet_keys_zero_based :
    ∀ b1 b2 b3 b4 b5 b6 b7 b8 b9 b10 b11 b12 b13 b14 b15 b16 b17 b18 : Nat,
      ([6, b1, b2, b3, b4, b5, b6, b7, b8, b9, b10, b11, b12, b13, b14, b15,
        b16, b17, b18].all (fun b => b < 256)) = true →
      ∃ d, get_printer_faults (.ok [6, b1, b2, b3, b4, b5, b6, b7, b8, b9,
          b10, b11, b12, b13, b14, b15, b16, b17, b18]) = .ok (true, some d) ∧
        d.lookup "j0_not_present" = some (b9.testBit 0) ∧
        d.lookup "j1_not_present" = some (b12.testBit 0) ∧
        d.lookup "j2_not_present" = some (b15.testBit 0) ∧
        d.lookup "j3_not_present" = some (b18.testBit 0) ∧
        d.lookup "j4_not_present" = none := by
  intro b1 b2 b3 b4 b5 b6 b7 b8 b9 b10 b11 b12 b13 b14 b15 b16 b17 b18 hlt
  exact ⟨_, get_printer_faults_ok b1 b2 b3 b4 b5 b6 b7 b8 b9 b10 b11 b12 b13
    b14 b15 b16 b17 b18, rfl, rfl, rfl, rfl, rfl⟩

/-- Claim C10 witness: the key layout at the healthy all-zero 19-byte
response. -/
theorem claim10_witness :
    ∃ d, get_printer_faults (.ok [6, 0, 0, 0, 0, 0, 0, 0, 0, 0, 0, 0, 0, 0,
        0, 0, 0, 0, 0]) = .ok (true, some d) ∧
      d.lookup "j0_not_present" = some ((0 : Nat).testBit 0) ∧
      d.lookup "j1_not_present" = some ((0 : Nat).testBit 0) ∧
      d.lookup "j2_not_present" = some ((0 : Nat).testBit 0) ∧
      d.lookup "j3_not_present" = some ((0 : Nat).testBit 0) ∧
      d.lookup "j4_not_present" = none :=
  claim10_jet_keys_zero_based 0 0 0 0 0 0 0 0 0 0 0 0 0 0 0 0 0 0 (by decide)

theorem get_number_eq_count (resp : Response) (d : List (String × Bool))
    (h : get_printer_faults resp = .ok (true, some d)) :
    get_number_of_available_jets resp =
      .ok (true, some ((d.filter
        (fun kv => hasNotPresent kv.1 && (kv.2 == false))).length)) := by
  unfold get_number_of_available_jets
  rw [h]
  rfl

set_option maxRecDepth 100000 in
set_option maxHeartbeats 4000000 in
/-- Claim C8: when the underlying fault query succeeds (here: on an
acknowledged 19-byte fault response), the available-jet count is the number
of the four not-present bits (the low bit of bytes 9, 12, 15, 18) whose
decoded value is 0, returned with success; when the fault query fails, the
operation returns a failed result with no count. -/
theorem claim8_available_jet_count :
    (∀ b1 b2 b3 b4 b5 b6 b7 b8 b9 b10 b11 b12 b13 b14 b15 b16 b17 b18 : Nat,
        ([6, b1, b2, b3, b4, b5, b6, b7, b8, b9, b10, b11, b12, b13, b14, b15,
          b16, b17, b18].all (fun b => b < 256)) = true →
        get_number_of_available_jets (.ok [6, b1, b2, b3, b4, b5, b6, b7, b8,
            b9, b10, b11, b12, b13, b14, b15, b16, b17, b18]) =
          .ok (true, some ([b9.testBit 0, b12.testBit 0, b15.testBit 0,
            b18.testBit 0].count false))) ∧
    (∀ resp : Response, get_printer_faults resp = .ok (false, none) →
        get_number_of_available_jets resp = .ok (false, none)) := by
  constructor
  · intro b1 b2 b3 b4 b5 b6 b7 b8 b9 b10 b11 b12 b13 b14 b15 b16 b17 b18 hlt
    refine (get_number_eq_count _ _ (get_printer_faults_ok b1 b2 b3 b4 b5 b6
      b7 b8 b9 b10 b11 b12 b13 b14 b15 b16 b17 b18)).trans ?_
    simp only [decodedFaultSet]
    cases h9 : b9.testBit 0 <;> cases h12 : b12.testBit 0 <;>
      cases h15 : b15.testBit 0 <;> cases h18 : b18.testBit 0 <;> rfl
  · intro resp h
    unfold get_number_of_available_jets
    rw [h]
    rfl

/-- Claim C8 witness: at the healthy all-zero 19-byte response all four
not-present bits decode to 0 and the count is 4; at a not-acknowledged
response the fault query fails and the operation fails with no count. -/
theorem claim8_witness :
    get_number_of_available_jets (.ok [6, 0, 0, 0, 0, 0, 0, 0, 0, 0, 0, 0, 0,
        0, 0, 0, 0, 0, 0]) = .ok (true, some ([(0 : Nat).testBit 0,
      (0 : Nat).testBit 0, (0 : Nat).testBit 0, (0 : Nat).testBit 0].count false)) ∧
    get_number_of_available_jets (.ok [0x15]) = .ok (false, none) :=
  ⟨claim8_available_jet_count.1 0 0 0 0 0 0 0 0 0 0 0 0 0 0 0 0 0 0 (by decide),
   claim8_available_jet_count.2 (.ok [0x15]) (by decide)⟩

/-- Claim C5: the failure-collapse policy evaluated on the code.  On an
acknowledged jet-status response whose status byte is 0x08 (not a key of
the status table) the operation raises `KeyError` instead of returning a
failed result; on an acknowledged date/time response whose window holds no
digits the operation raises `ValueError`; only the transport-failure path
does collapse to `(False, None)`.  The jet-count discovery response used
here is the healthy all-zero 19-byte reply. -/
theorem claim5_uniform_collapse_violated :
    get_jet_status (.ok (6 :: List.replicate 18 0)) (.ok [6, 0, 0, 0, 8]) 1 =
      .error .keyError ∧
    get_autodating_table (.ok (6 :: List.replicate 25 0)) = .error .valueError ∧
    get_jet_status (.ok (6 :: List.replicate 18 0)) (.error .transportError) 1 =
      .ok (false, none) := by
  decide

/-- The 26-character ASCII parameter slice of the end-to-end scenario,
`"1500 2,50 03 01 1,20 23 24"`, as payload byte values. -/
def parameterSliceExample : List Nat :=
  "1500 2,50 03 01 1,20 23 24".toList.map Char.toNat

/-- Claim C6: every acknowledged get-parameters reply whose payload slice
(bytes 4 to 29) is the fixed-width text `1500 2,50 03 01 1,20 23 24`
decodes to motor_speed 1500, pressure 5/2, visco_filling_times 3,
additive_added 1, average_jet_speed 6/5, temperatures 23 and 24, the comma
fields having been normalised to a dot before numeric conversion. -/
theorem claim6_parameters_decode :
    ∀ bytes : List Nat, bytes[0]? = some 6 →
      pySlice bytes 4 30 = parameterSliceExample →
      get_parameters (.ok bytes) =
        .ok (true, some ⟨1500, 5 / 2, 3, 1, 6 / 5, 23, 24⟩) := by
  intro bytes h0 hs
  rcases bytes with _ | ⟨b, t⟩
  · simp at h0
  obtain rfl : b = 6 := by simpa using h0
  have step : get_parameters (.ok (6 :: t)) = (do
      let p ← decode_parameters_window (pySlice (6 :: t) 4 30)
      pure (true, some p) : Except PyErr (Bool × Option ParameterSet)) := rfl
  rw [step, hs]
  have h : (do
      let p ← decode_parameters_window parameterSliceExample
      pure (true, some p) : Except PyErr (Bool × Option ParameterSet)) =
      .ok (true, some ⟨1500, (2 : ℚ) + (50 : ℚ) / 10 ^ 2, 3, 1,
        (1 : ℚ) + (20 : ℚ) / 10 ^ 2, 23, 24⟩) := rfl
  rw [h]
  simp only [Except.ok.injEq, Prod.mk.injEq, Option.some.injEq,
    ParameterSet.mk.injEq, true_and]
  norm_num

/-- Claim C6 witness: the decode at the concrete 30-byte reply carrying the
scenario slice. -/
theorem claim6_witness :
    get_parameters (.ok ([6, 0, 0, 0] ++ parameterSliceExample)) =
      .ok (true, some ⟨1500, 5 / 2, 3, 1, 6 / 5, 23, 24⟩) :=
  claim6_parameters_decode ([6, 0, 0, 0] ++ parameterSliceExample) (by decide)
    (by decide)

/-- Claim C7 counterexample: on an acknowledged jet-speed reply whose
payload byte at offset 4 has the raw value 25 (hex string 19), the decoded
speed is 19/10 = 1.9, not 25/10 = 2.5: the two hex digits are re-read as a
decimal numeral. -/
theorem claim7_counterexample :
    get_jet_speed (.ok [6, 0, 0, 0, 25]) = .ok (true, some ((19 : ℚ) / 10)) ∧
    get_jet_speed (.ok [6, 0, 0, 0, 25]) ≠ .ok (true, some ((25 : ℚ) / 10)) := by
  refine ⟨rfl, fun h => ?_⟩
  rw [show get_jet_speed (.ok [6, 0, 0, 0, 25]) =
    .ok (true, some ((19 : ℚ) / 10)) from rfl] at h
  simp only [Except.ok.injEq, Prod.mk.injEq, Option.some.injEq, true_and] at h
  norm_num at h

/-- Claim C7 amended: the decode re-reads the two lowercase hex digits of
the byte at offset 4 as a decimal numeral and divides by 10, so for a byte
both of whose hex digits are at most 9 (a BCD byte `16 * hi + lo`) the
speed is `(10 * hi + lo) / 10`; byte 0x25 (value 37) decodes to 2.5 and
byte 0 to 0.0, while a byte with a hex letter digit raises `ValueError`. -/
theorem claim7_jet_speed_bcd :
    (∀ b1 b2 b3 hi lo : Nat, hi ≤ 9 → lo ≤ 9 →
        get_jet_speed (.ok [6, b1, b2, b3, 16 * hi + lo]) =
          .ok (true, some (((10 * hi + lo : ℕ) : ℚ) / 10))) ∧
    get_jet_speed (.ok [6, 0, 0, 0, 0x25]) = .ok (true, some ((5 : ℚ) / 2)) ∧
    get_jet_speed (.ok [6, 0, 0, 0, 0]) = .ok (true, some 0) ∧
    get_jet_speed (.ok [6, 0, 0, 0, 10]) = .error .valueError := by
  refine ⟨fun b1 b2 b3 hi lo hhi hlo => ?_, ?_, ?_, by decide⟩
  · have e3 : hexStrCodes (16 * hi + lo) = [48 + hi, 48 + lo] := by
      simp only [hexStrCodes, hexDigitCode]
      rw [show (16 * hi + lo) / 16 = hi by omega,
          show (16 * hi + lo) % 16 = lo by omega, if_pos hhi, if_pos hlo]
    have e4 : pyFloat [48 + hi, 48 + lo] = .ok (((10 * hi + lo : ℕ) : ℚ)) := by
      unfold pyFloat
      rw [show splitOnDot [48 + hi, 48 + lo] = [[48 + hi, 48 + lo]] from by
        simp only [splitOnDot]
        rw [if_neg (by omega : ¬ (48 + lo = 46)),
            if_neg (by omega : ¬ (48 + hi = 46))]
        rfl]
      simp only [pyFloatParts]
      rw [if_pos ⟨by simp, by
        simp only [List.all_cons, List.all_nil, Bool.and_true, Bool.and_eq_true,
          isDigitCode, decide_eq_true_eq]
        omega⟩]
      rw [show digitsVal [48 + hi, 48 + lo] = 10 * hi + lo from by
        unfold digitsVal
        simp only [List.foldl]
        omega]
    have step : get_jet_speed (.ok [6, b1, b2, b3, 16 * hi + lo]) = (do
        let v ← pyFloat (hexStrCodes (16 * hi + lo))
        pure (true, some (v / 10)) : Except PyErr (Bool × Option ℚ)) := by
      with_unfolding_all rfl
    rw [step, e3, e4]
    rfl
  · rw [show get_jet_speed (.ok [6, 0, 0, 0, 0x25]) =
      .ok (true, some ((25 : ℚ) / 10)) from rfl]
    simp only [Except.ok.injEq, Prod.mk.injEq, Option.some.injEq, true_and]
    norm_num
  · rw [show get_jet_speed (.ok [6, 0, 0, 0, 0]) =
      .ok (true, some ((0 : ℚ) / 10)) from rfl]
    simp only [Except.ok.injEq, Prod.mk.injEq, Option.some.injEq, true_and]
    norm_num

/-- Claim C7 witness: the amended decode rule applied at the BCD byte 0x25
(hex digits 2 and 5, value 37). -/
theorem claim7_witness :
    get_jet_speed (.ok [6, 0, 0, 0, 37]) =
      .ok (true, some (((25 : ℕ) : ℚ) / 10)) :=
  claim7_jet_speed_bcd.1 0 0 0 2 5 (by decide) (by decide)

/-- Claim C9: the out-of-range check evaluated on the code.  When the
jet-count discovery itself fails (here: a not-acknowledged fault reply,
leading to `(False, None)`), the comparison `jet_id > None` raises
`TypeError` before any command is framed or sent — whatever the
would-be command response and jet id, for `set_external_variable` and for
`get_jet_counter` alike.  Only when discovery succeeds is the check
advisory: with 4 discovered jets and jet id 5 the command is still sent
and the device's answer decides the result through the normal
acknowledgement path (false on NACK, true on ACK). -/
theorem claim9_advisory_check_evaluation :
    (∀ (cmdResp : Response) (jet_id : Nat) (vars : List (List Nat)),
        set_external_variable (.ok [0x15]) cmdResp jet_id vars =
          .error .typeError) ∧
    (∀ (cmdResp : Response) (jet_id : Nat),
        get_jet_counter (.ok [0x15]) cmdResp jet_id = .error .typeError) ∧
    set_external_variable (.ok (6 :: List.replicate 18 0)) (.ok [0x15]) 5 [[65]] =
      .ok false ∧
    set_external_variable (.ok (6 :: List.replicate 18 0)) (.ok [6]) 5 [[65]] =
      .ok true := by
  refine ⟨fun cmdResp jet_id vars => rfl, fun cmdResp jet_id => rfl,
    by decide, by decide⟩
